import Mathlib

/-!
Shallow embedding of `WebhookProgressPlugin.py` (Cura webhook progress plugin).

Python floats (progress values and `time.time()` timestamps) are modelled as
exact rationals `ℚ`; progress percentages as `ℤ`.  The plugin object's mutable
fields become the record `TrackerState`; each signal handler becomes a pure
function `state → state × emitted events`, where an emitted event is a call to
`_send_webhook_update`.  Whether such a call actually issues an HTTP request is
decided separately by `sendWebhookUpdate` (the URL sentinel check), mirroring
the code's structure.
-/

namespace WebhookPlugin

/-- Python `int(q)` on a nonnegative-or-negative rational: truncation toward
zero (`int(x)` in Python truncates; for `x ≥ 0` this is the floor). -/
def pyInt (q : ℚ) : ℤ :=
  if 0 ≤ q then ⌊q⌋ else ⌈q⌉

/-- The hardcoded placeholder URL set by `_load_settings`. -/
def URL_PLACEHOLDER : String := "https://your-webhook-url.com/progress"

/-- The guard `not self._webhook_url or self._webhook_url == "https://your-webhook-url.com/progress"`:
an empty string is falsy in Python, so the URL is "unconfigured" when it is
empty or equals the placeholder. -/
def urlUnconfigured (url : String) : Prop :=
  url = "" ∨ url = URL_PLACEHOLDER

instance (url : String) : Decidable (urlUnconfigured url) := by
  unfold urlUnconfigured; infer_instance

/-- A print-job object as the plugin observes it: `name` is the result of
`getName()` when the attribute exists (`none` = no `getName` attribute, the
code then falls back to `"Unknown"`); `getProgress` is `none` when the job has
no `getProgress` attribute, otherwise `some r` where `r` is the returned value
(`Option ℚ`, since the call may return Python `None`). -/
structure Job where
  name : Option String
  getProgress : Option (Option ℚ)
deriving DecidableEq, Repr

/-- A printer output device as the poller observes it: `activePrintJob` is
`none` when the device lacks the attribute, otherwise `some job?` where `job?`
is the job or Python `None`; `printProgress` likewise (`none` = no attribute,
otherwise the float value or `None`). -/
structure Device where
  activePrintJob : Option (Option Job)
  printProgress : Option (Option ℚ)
deriving DecidableEq, Repr

/-- The mutable fields of the plugin object. -/
structure TrackerState where
  webhook_url : String
  last_progress : ℤ
  is_printing : Bool
  current_job_name : String
  print_start_time : ℚ
deriving DecidableEq, Repr

/-- The state after `__init__` ran: `_load_settings` has set the webhook URL
to the placeholder, `_last_progress = -1`, `_is_printing = False`,
`_current_job_name = ""`, `_print_start_time = 0`. -/
def initState : TrackerState :=
  { webhook_url := URL_PLACEHOLDER
    last_progress := -1
    is_printing := false
    current_job_name := ""
    print_start_time := 0 }

/-- A semantic event handed to `_send_webhook_update` (event type plus the
`data` dictionary's fields). -/
inductive Event where
  | print_started (job_name : String) (start_time : ℚ)
  | progress_update (job_name : String) (progress_percent : ℤ)
      (elapsed_time_seconds : ℚ) (estimated_remaining_seconds : ℚ) (timestamp : ℚ)
  | print_ended (message : String) (timestamp : ℚ)
deriving DecidableEq, Repr

/-- The `event_type` string of an event. -/
def Event.eventType : Event → String
  | .print_started .. => "print_started"
  | .progress_update .. => "progress_update"
  | .print_ended .. => "print_ended"

/-- `_on_print_job_changed(job)`: unconditionally (no check of the current
state) ends the print on `job is None` — resetting `_is_printing`,
`_current_job_name` and `_last_progress` but leaving `_print_start_time`
untouched — or starts one on a non-null job, resetting `_print_start_time`
to `now` and `_last_progress` to `0`. -/
def onPrintJobChanged (now : ℚ) (job : Option Job) (s : TrackerState) :
    TrackerState × List Event :=
  match job with
  | none =>
      ({ s with is_printing := false, current_job_name := "", last_progress := -1 },
       [Event.print_ended "Print job ended or cancelled" now])
  | some j =>
      let name := j.name.getD "Unknown"
      ({ s with is_printing := true, current_job_name := name,
                print_start_time := now, last_progress := 0 },
       [Event.print_started name now])

/-- `_on_print_progress_changed(progress)`: no-op unless `_is_printing`;
computes `progress_percent = int(progress * 100)` and acts only when it is
strictly greater than `_last_progress`; the time estimate divides by
`progress if progress > 0 else 0.01`.  All `time.time()` calls inside the
handler are modelled by the single instant `now`. -/
def onPrintProgressChanged (now p : ℚ) (s : TrackerState) :
    TrackerState × List Event :=
  if s.is_printing = false then (s, [])
  else
    let progress_percent := pyInt (p * 100)
    if s.last_progress < progress_percent then
      let elapsed := now - s.print_start_time
      let estimated_total := elapsed / (if 0 < p then p else 1 / 100)
      ({ s with last_progress := progress_percent },
       [Event.progress_update s.current_job_name progress_percent elapsed
          (estimated_total - elapsed) now])
    else (s, [])

/-- The progress value obtained inside the device loop of
`_check_print_progress`: `progress = 0.0`, overwritten by `job.getProgress()`
when the job has that attribute, else by `device.printProgress` when the
device has that one; the result may be Python `None`. -/
def deviceProgress (d : Device) (j : Job) : Option ℚ :=
  match j.getProgress with
  | some v => v
  | none =>
      match d.printProgress with
      | some v => v
      | none => some 0

/-- One iteration of the device loop in `_check_print_progress`: if the device
has an `activePrintJob` attribute, synthesize a job start when a job is
present and the tracker is idle, then feed the job's (or device's) progress to
the progress handler unless it is `None`; synthesize an end when the job is
`None` and the tracker is printing. -/
def processDevice (now : ℚ) (d : Device) (s : TrackerState) :
    TrackerState × List Event :=
  match d.activePrintJob with
  | none => (s, [])
  | some none =>
      if s.is_printing = true then onPrintJobChanged now none s else (s, [])
  | some (some j) =>
      let r1 := if s.is_printing = false then onPrintJobChanged now (some j) s else (s, [])
      match deviceProgress d j with
      | some p =>
          let r2 := onPrintProgressChanged now p r1.1
          (r2.1, r1.2 ++ r2.2)
      | none => r1

/-- The `for device in output_devices` loop of `_check_print_progress`. -/
def pollDevices (now : ℚ) (devices : List Device) (s : TrackerState)
    (acc : List Event) : TrackerState × List Event :=
  match devices with
  | [] => (s, acc)
  | d :: ds =>
      let r := processDevice now d s
      pollDevices now ds r.1 (acc ++ r.2)

/-- `_check_print_progress()`: early exit when the webhook URL is
unconfigured, otherwise iterate over the known devices. -/
def checkPrintProgress (now : ℚ) (devices : List Device) (s : TrackerState) :
    TrackerState × List Event :=
  if urlUnconfigured s.webhook_url then (s, [])
  else pollDevices now devices s []

/-- `setWebhookUrl(url)`. -/
def setWebhookUrl (url : String) (s : TrackerState) : TrackerState :=
  { s with webhook_url := url }

/-- The JSON payload built by `_send_webhook_update`. -/
structure Payload where
  event_type : String
  data : Event
  plugin_version : String
deriving DecidableEq, Repr

/-- `_send_webhook_update(event_type, data)`: when the URL is unconfigured the
attempt is only logged and no request thread is spawned (`none`); otherwise
exactly one request with the versioned payload is issued. -/
def sendWebhookUpdate (url : String) (ev : Event) : Option Payload :=
  if urlUnconfigured url then none
  else some { event_type := ev.eventType, data := ev, plugin_version := "1.0.0" }

/-- The HTTP requests actually issued for a list of tracker events. -/
def requestsFor (url : String) (evs : List Event) : List Payload :=
  evs.filterMap (sendWebhookUpdate url)

/-- The states the tracker can reach from `initState` under any sequence of
push job-changed / progress-changed signals, poller ticks, and URL updates. -/
inductive Reachable : TrackerState → Prop where
  | init : Reachable initState
  | push_job (now : ℚ) (job : Option Job) {s : TrackerState} :
      Reachable s → Reachable (onPrintJobChanged now job s).1
  | push_progress (now p : ℚ) {s : TrackerState} :
      Reachable s → Reachable (onPrintProgressChanged now p s).1
  | poll (now : ℚ) (devices : List Device) {s : TrackerState} :
      Reachable s → Reachable (checkPrintProgress now devices s).1
  | set_url (url : String) {s : TrackerState} :
      Reachable s → Reachable (setWebhookUrl url s)

/-- The tracker invariant: `_last_progress` is the `-1` sentinel whenever the
tracker is idle, and is nonnegative whenever it is printing. -/
def InvP (s : TrackerState) : Prop :=
  (s.is_printing = false → s.last_progress = -1) ∧
  (s.is_printing = true → 0 ≤ s.last_progress)

/-- Whether an event is a `progress_update`. -/
def isProgressUpdate : Event → Bool
  | .progress_update .. => true
  | _ => false

/-- The number of `progress_update` events in a list of events. -/
def countProgressUpdates (evs : List Event) : Nat :=
  (evs.filter isProgressUpdate).length

/-- A sample job used in concrete runs of the tracker. -/
def cexJob : Job :=
  { name := some "benchy.gcode", getProgress := none }

/-- The tracker state right after a push job-changed signal with `cexJob`
arrives in the initial state. -/
def cexStart : TrackerState :=
  { webhook_url := URL_PLACEHOLDER
    last_progress := 0
    is_printing := true
    current_job_name := "benchy.gcode"
    print_start_time := 0 }

/-- `cexStart` after a progress signal of `0.5` at time `10`. -/
def cexMid : TrackerState :=
  { cexStart with last_progress := 50 }

/-- `cexMid` after a second push job-changed signal with a (new) job at
time `20`: still printing, but `_last_progress` is back to `0`. -/
def cexRestart : TrackerState :=
  { cexMid with last_progress := 0, print_start_time := 20 }

/-! ### Notification sender (`_send_webhook_request`) -/

/-- A Python exception raised inside the `try` block of
`_send_webhook_request`: `urllib.error.HTTPError`, `urllib.error.URLError`,
or any other `Exception` (e.g. a `json.dumps` serialization failure). -/
inductive PyExc where
  | httpError (code : ℤ) (reason : String)
  | urlError (reason : String)
  | generic (msg : String)
deriving DecidableEq, Repr

/-- Log levels of `UM.Logger` as used by the plugin. -/
inductive LogLevel where
  | d | i | w | e
deriving DecidableEq, Repr

/-- One emitted log line. -/
structure LogLine where
  level : LogLevel
  msg : String
deriving DecidableEq, Repr

/-- What the transport does on a given attempt: a response with some status
code, or one of the failure modes (HTTP error status raised as `HTTPError`,
DNS/connection/timeout raised as `URLError`, serialization failure, any other
exception). -/
inductive TransportOutcome where
  | response (code : ℤ)
  | httpError (code : ℤ) (reason : String)
  | urlError (reason : String)
  | serializationError (msg : String)
  | otherException (msg : String)
deriving DecidableEq, Repr

/-- The `try` body of `_send_webhook_request`: returns the log line it emits,
or the exception it raises. -/
def webhookRequestBody (eventType : String) (oc : TransportOutcome) :
    Except PyExc LogLine :=
  match oc with
  | .response code =>
      if code = 200 then
        .ok { level := .d, msg := "Webhook update sent successfully: " ++ eventType }
      else
        .ok { level := .w, msg := "Webhook returned status " ++ toString code }
  | .httpError code reason => .error (.httpError code reason)
  | .urlError reason => .error (.urlError reason)
  | .serializationError m => .error (.generic m)
  | .otherException m => .error (.generic m)

/-- `_send_webhook_request(payload)`: the `try` body wrapped in the three
`except` clauses, each of which only logs.  The result is what reaches the
invoker: always `.ok` with the emitted log line, never a propagated
exception. -/
def sendWebhookRequest (eventType : String) (oc : TransportOutcome) :
    Except PyExc LogLine :=
  match webhookRequestBody eventType oc with
  | .ok l => .ok l
  | .error (.httpError code reason) =>
      .ok { level := .e,
            msg := "HTTP error sending webhook: " ++ toString code ++ " - " ++ reason }
  | .error (.urlError reason) =>
      .ok { level := .e, msg := "URL error sending webhook: " ++ reason }
  | .error (.generic m) =>
      .ok { level := .e, msg := "Unexpected error sending webhook: " ++ m }

/-! ### Helper lemmas -/

/-- `int(q)` agrees with the floor on nonnegative arguments. -/
theorem pyInt_eq_floor (q : ℚ) (h : 0 ≤ q) : pyInt q = ⌊q⌋ :=
  if_pos h

/-- The progress handler is a no-op when the tracker is idle. -/
theorem onPPC_eq_of_not_printing (now p : ℚ) (s : TrackerState)
    (h1 : s.is_printing = false) :
    onPrintProgressChanged now p s = (s, []) := by
  simp [onPrintProgressChanged, h1]

/-- The progress handler is a no-op when the percentage has not strictly
increased. -/
theorem onPPC_eq_of_skip (now p : ℚ) (s : TrackerState)
    (h1 : s.is_printing = true) (h2 : ¬ s.last_progress < pyInt (p * 100)) :
    onPrintProgressChanged now p s = (s, []) := by
  simp [onPrintProgressChanged, h1, h2]

/-- The progress handler's acting branch, written out. -/
theorem onPPC_eq_of_fire (now p : ℚ) (s : TrackerState)
    (h1 : s.is_printing = true) (h2 : s.last_progress < pyInt (p * 100)) :
    onPrintProgressChanged now p s =
      ({ s with last_progress := pyInt (p * 100) },
       [Event.progress_update s.current_job_name (pyInt (p * 100))
          (now - s.print_start_time)
          ((now - s.print_start_time) / (if 0 < p then p else 1 / 100) -
            (now - s.print_start_time)) now]) := by
  simp [onPrintProgressChanged, h1, h2]

/-- The progress handler never toggles `_is_printing`. -/
theorem onPPC_printing (now p : ℚ) (s : TrackerState) :
    (onPrintProgressChanged now p s).1.is_printing = s.is_printing := by
  by_cases h1 : s.is_printing = false
  · rw [onPPC_eq_of_not_printing now p s h1]
  · have h1' : s.is_printing = true := by simpa using h1
    by_cases h2 : s.last_progress < pyInt (p * 100)
    · rw [onPPC_eq_of_fire now p s h1' h2]
    · rw [onPPC_eq_of_skip now p s h1' h2]

/-- The progress handler never decreases `_last_progress`. -/
theorem prog_last_mono (now p : ℚ) (s : TrackerState) :
    s.last_progress ≤ (onPrintProgressChanged now p s).1.last_progress := by
  by_cases h1 : s.is_printing = false
  · rw [onPPC_eq_of_not_printing now p s h1]
  · have h1' : s.is_printing = true := by simpa using h1
    by_cases h2 : s.last_progress < pyInt (p * 100)
    · rw [onPPC_eq_of_fire now p s h1' h2]
      exact le_of_lt h2
    · rw [onPPC_eq_of_skip now p s h1' h2]

/-- A nonempty event list from the progress handler means the tracker was
printing and the percentage strictly increased. -/
theorem onPPC_ne_nil (now p : ℚ) (s : TrackerState)
    (hne : (onPrintProgressChanged now p s).2 ≠ []) :
    s.is_printing = true ∧ s.last_progress < pyInt (p * 100) := by
  by_cases h1 : s.is_printing = false
  · rw [onPPC_eq_of_not_printing now p s h1] at hne
    simp at hne
  · have h1' : s.is_printing = true := by simpa using h1
    by_cases h2 : s.last_progress < pyInt (p * 100)
    · exact ⟨h1', h2⟩
    · rw [onPPC_eq_of_skip now p s h1' h2] at hne
      simp at hne

/-- The job handler always leaves the tracker in an `InvP` state. -/
theorem invP_job (now : ℚ) (job : Option Job) (s : TrackerState) :
    InvP (onPrintJobChanged now job s).1 := by
  cases job with
  | none => exact ⟨fun _ => rfl, fun ht => Bool.noConfusion ht⟩
  | some j => exact ⟨fun hf => Bool.noConfusion hf, fun _ => le_refl 0⟩

/-- The progress handler preserves `InvP`. -/
theorem invP_prog (now p : ℚ) (s : TrackerState) (h : InvP s) :
    InvP (onPrintProgressChanged now p s).1 := by
  constructor
  · intro hf
    rw [onPPC_printing now p s] at hf
    rw [onPPC_eq_of_not_printing now p s hf]
    exact h.1 hf
  · intro ht
    rw [onPPC_printing now p s] at ht
    have hm := prog_last_mono now p s
    have h0 := h.2 ht
    omega

/-- One device-loop iteration preserves `InvP`. -/
theorem invP_processDevice (now : ℚ) (d : Device) (s : TrackerState)
    (h : InvP s) : InvP (processDevice now d s).1 := by
  rcases hd : d.activePrintJob with _ | (_ | j)
  · simpa [processDevice, hd] using h
  · by_cases hp : s.is_printing = true
    · simpa [processDevice, hd, hp] using invP_job now none s
    · simpa [processDevice, hd, hp] using h
  · have hr1 : InvP (if s.is_printing = false then
        onPrintJobChanged now (some j) s else (s, [])).1 := by
      split_ifs with hpr
      · exact invP_job now (some j) s
      · exact h
    rcases hq : deviceProgress d j with _ | p
    · simpa [processDevice, hd, hq] using hr1
    · simpa [processDevice, hd, hq] using invP_prog now p _ hr1

/-- The device loop preserves `InvP`. -/
theorem invP_pollDevices (now : ℚ) (devices : List Device) :
    ∀ (s : TrackerState) (acc : List Event), InvP s →
      InvP (pollDevices now devices s acc).1 := by
  induction devices with
  | nil => exact fun s acc h => h
  | cons d ds ih => exact fun s acc h => ih _ _ (invP_processDevice now d s h)

/-- A poller tick preserves `InvP`. -/
theorem invP_check (now : ℚ) (devices : List Device) (s : TrackerState)
    (h : InvP s) : InvP (checkPrintProgress now devices s).1 := by
  unfold checkPrintProgress
  split_ifs with hc
  · exact h
  · exact invP_pollDevices now devices s [] h

/-- Every reachable tracker state satisfies `InvP`. -/
theorem reachable_invP (s : TrackerState) (h : Reachable s) : InvP s := by
  induction h with
  | init => exact ⟨fun _ => rfl, fun ht => Bool.noConfusion ht⟩
  | push_job now job h ih => exact invP_job now job _
  | push_progress now p h ih => exact invP_prog now p _ ih
  | poll now devices h ih => exact invP_check now devices _ ih
  | set_url url h ih => exact ih

/-- `cexStart` is the push job-changed successor of the initial state. -/
theorem reachable_cexStart : Reachable cexStart :=
  Reachable.push_job 0 (some cexJob) Reachable.init

/-- Evaluation of `int(0.5 * 100)`. -/
theorem pyInt_half : pyInt ((1 / 2 : ℚ) * 100) = 50 := by
  have h : ((1 / 2 : ℚ) * 100) = 50 := by norm_num
  rw [h, pyInt_eq_floor 50 (by norm_num)]
  norm_num

/-- The strict-increase check passes for progress `0.5` in `cexStart`. -/
theorem cexStart_lt_half : cexStart.last_progress < pyInt ((1 / 2 : ℚ) * 100) := by
  rw [pyInt_half]
  norm_num [cexStart]

/-- `cexMid` is the progress-signal successor of `cexStart`. -/
theorem cexMid_eq : (onPrintProgressChanged 10 (1 / 2) cexStart).1 = cexMid := by
  rw [onPPC_eq_of_fire 10 (1 / 2) cexStart rfl cexStart_lt_half]
  show ({ cexStart with last_progress := pyInt ((1 / 2 : ℚ) * 100) } : TrackerState) = cexMid
  rw [pyInt_half]
  rfl

/-- `cexMid` is reachable. -/
theorem reachable_cexMid : Reachable cexMid :=
  cexMid_eq ▸ Reachable.push_progress 10 (1 / 2) reachable_cexStart

/-- `cexRestart` is the second-job successor of `cexMid`. -/
theorem reachable_cexRestart : Reachable cexRestart :=
  Reachable.push_job 20 (some cexJob) reachable_cexMid

/-- A progress handler call that emits an event was given `p ≥ 0.01`
(in any reachable state). -/
theorem fire_p_ge (s : TrackerState) (now p : ℚ) (hr : Reachable s)
    (hne : (onPrintProgressChanged now p s).2 ≠ []) : 1 / 100 ≤ p := by
  obtain ⟨h1, h2⟩ := onPPC_ne_nil now p s hne
  have hl : 0 ≤ s.last_progress := (reachable_invP s hr).2 h1
  have hpy : 1 ≤ pyInt (p * 100) := by omega
  by_cases hq : 0 ≤ p * 100
  · rw [pyInt_eq_floor (p * 100) hq] at hpy
    have hle : (1 : ℚ) ≤ p * 100 := by exact_mod_cast Int.le_floor.mp hpy
    linarith
  · exfalso
    have hceil : pyInt (p * 100) = ⌈p * 100⌉ := if_neg hq
    rw [hceil] at hpy
    have h0 : ⌈p * 100⌉ ≤ (0 : ℤ) := by
      rw [Int.ceil_le]
      push_cast
      linarith [not_le.mp hq]
    omega

/-! ### Claim theorems -/

/-- Claim C1, counterexample to the claim as stated: a push job-changed
signal carrying a (new) non-null job while the tracker is already printing
resets `_last_progress` from 50 to 0, a strict decrease with
`_is_printing = true` before and after, on a reachable state. -/
theorem last_progress_decrease_cex :
    Reachable cexMid ∧ Reachable cexRestart ∧
    (onPrintJobChanged 20 (some cexJob) cexMid).1 = cexRestart ∧
    cexMid.is_printing = true ∧ cexRestart.is_printing = true ∧
    cexRestart.last_progress < cexMid.last_progress :=
  ⟨reachable_cexMid, reachable_cexRestart, rfl, rfl, rfl, by norm_num [cexRestart, cexMid, cexStart]⟩

/-- Claim C1 (amended): in every reachable state, `_last_progress = -1`
whenever `_is_printing = false`; `_last_progress` never decreases under a
progress-changed signal; and the only decreasing transition while printing is
a job-changed signal with a non-null job, which resets it to 0 (a new job's
lifetime begins). -/
theorem tracker_invariant_amended :
    (∀ s, Reachable s → s.is_printing = false → s.last_progress = -1) ∧
    (∀ (s : TrackerState) (now p : ℚ),
      s.last_progress ≤ (onPrintProgressChanged now p s).1.last_progress) ∧
    (∀ (s : TrackerState) (now : ℚ) (j : Job),
      (onPrintJobChanged now (some j) s).1.last_progress = 0) :=
  ⟨fun s hr => (reachable_invP s hr).1,
   fun s now p => prog_last_mono now p s,
   fun _ _ _ => rfl⟩

/-- Claim C1, witness: the amended invariant evaluated on concrete states. -/
theorem tracker_invariant_amended_witness :
    initState.last_progress = -1 ∧
    cexStart.last_progress ≤ (onPrintProgressChanged 10 (1 / 2) cexStart).1.last_progress ∧
    (onPrintJobChanged 20 (some cexJob) cexMid).1.last_progress = 0 :=
  ⟨tracker_invariant_amended.1 initState Reachable.init rfl,
   tracker_invariant_amended.2.1 cexStart 10 (1 / 2),
   tracker_invariant_amended.2.2 cexMid 20 cexJob⟩

/-- Claim C2: the progress handler acts (updates `_last_progress` and emits
exactly one `progress_update`) iff the tracker is printing and
`int(progress * 100)` strictly exceeds `_last_progress`; while idle, or
without a strict increase, it is a complete no-op; and two progress values
with equal `floor(p * 100)` yield at most one `progress_update` between
them. -/
theorem progress_handler_dedup :
    (∀ (s : TrackerState) (now p : ℚ), s.is_printing = false →
      onPrintProgressChanged now p s = (s, [])) ∧
    (∀ (s : TrackerState) (now p : ℚ), s.is_printing = true →
      s.last_progress < pyInt (p * 100) →
      (onPrintProgressChanged now p s).1.last_progress = pyInt (p * 100) ∧
      (onPrintProgressChanged now p s).2.map Event.eventType = ["progress_update"]) ∧
    (∀ (s : TrackerState) (now p : ℚ), s.is_printing = true →
      ¬ s.last_progress < pyInt (p * 100) →
      onPrintProgressChanged now p s = (s, [])) ∧
    (∀ (s : TrackerState) (now1 now2 p1 p2 : ℚ), 0 ≤ p1 → 0 ≤ p2 →
      ⌊p1 * 100⌋ = ⌊p2 * 100⌋ →
      countProgressUpdates ((onPrintProgressChanged now1 p1 s).2 ++
        (onPrintProgressChanged now2 p2 (onPrintProgressChanged now1 p1 s).1).2) ≤ 1) := by
  refine ⟨?_, ?_, ?_, ?_⟩
  · exact fun s now p h1 => onPPC_eq_of_not_printing now p s h1
  · intro s now p h1 h2
    rw [onPPC_eq_of_fire now p s h1 h2]
    exact ⟨rfl, rfl⟩
  · exact fun s now p h1 h2 => onPPC_eq_of_skip now p s h1 h2
  · intro s now1 now2 p1 p2 hp1 hp2 hfl
    have hpy : pyInt (p1 * 100) = pyInt (p2 * 100) := by
      rw [pyInt_eq_floor (p1 * 100) (mul_nonneg hp1 (by norm_num)),
        pyInt_eq_floor (p2 * 100) (mul_nonneg hp2 (by norm_num)), hfl]
    by_cases h1 : s.is_printing = false
    · rw [onPPC_eq_of_not_printing now1 p1 s h1]
      rw [onPPC_eq_of_not_printing now2 p2 s h1]
      simp [countProgressUpdates]
    · have h1' : s.is_printing = true := by simpa using h1
      by_cases h2 : s.last_progress < pyInt (p1 * 100)
      · rw [onPPC_eq_of_fire now1 p1 s h1' h2]
        have hskip : onPrintProgressChanged now2 p2
            ({ s with last_progress := pyInt (p1 * 100) }) =
            ({ s with last_progress := pyInt (p1 * 100) }, []) := by
          apply onPPC_eq_of_skip
          · exact h1'
          · show ¬ pyInt (p1 * 100) < pyInt (p2 * 100)
            omega
        rw [hskip]
        simp [countProgressUpdates, isProgressUpdate]
      · rw [onPPC_eq_of_skip now1 p1 s h1' h2]
        by_cases h3 : s.last_progress < pyInt (p2 * 100)
        · rw [onPPC_eq_of_fire now2 p2 s h1' h3]
          simp [countProgressUpdates, isProgressUpdate]
        · rw [onPPC_eq_of_skip now2 p2 s h1' h3]
          simp [countProgressUpdates]

/-- Claim C2, witness: in `cexStart` (printing, `_last_progress = 0`),
progress `0.5` fires exactly one `progress_update` and sets
`_last_progress` to `int(0.5 * 100)`. -/
theorem progress_handler_dedup_witness :
    cexStart.is_printing = true ∧
    cexStart.last_progress < pyInt ((1 / 2 : ℚ) * 100) ∧
    (onPrintProgressChanged 10 (1 / 2) cexStart).1.last_progress = pyInt ((1 / 2 : ℚ) * 100) ∧
    (onPrintProgressChanged 10 (1 / 2) cexStart).2.map Event.eventType = ["progress_update"] :=
  ⟨rfl, cexStart_lt_half,
   (progress_handler_dedup.2.1 cexStart 10 (1 / 2) rfl cexStart_lt_half).1,
   (progress_handler_dedup.2.1 cexStart 10 (1 / 2) rfl cexStart_lt_half).2⟩

/-- Claim C3: for every progress value `p ∈ [0, 1]`, any `progress_update`
event the handler emits reports exactly `⌊p * 100⌋` (the code's
`int(progress * 100)` agrees with the floor on nonnegative values). -/
theorem progress_percent_is_floor :
    ∀ (s : TrackerState) (now p : ℚ), 0 ≤ p → p ≤ 1 →
      ∀ (jb : String) (pct : ℤ) (el rem ts : ℚ),
        Event.progress_update jb pct el rem ts ∈ (onPrintProgressChanged now p s).2 →
        pct = ⌊p * 100⌋ := by
  intro s now p hp0 hp1 jb pct el rem ts hm
  by_cases h1 : s.is_printing = false
  · rw [onPPC_eq_of_not_printing now p s h1] at hm
    simp at hm
  · have h1' : s.is_printing = true := by simpa using h1
    by_cases h2 : s.last_progress < pyInt (p * 100)
    · rw [onPPC_eq_of_fire now p s h1' h2] at hm
      simp only [List.mem_singleton, Event.progress_update.injEq] at hm
      rw [hm.2.1, pyInt_eq_floor (p * 100) (mul_nonneg hp0 (by norm_num))]
    · rw [onPPC_eq_of_skip now p s h1' h2] at hm
      simp at hm

/-- Claim C3, witness: progress `0.5` in `cexStart` reports 50, the floor of
`0.5 * 100`. -/
theorem progress_percent_is_floor_witness :
    (0 : ℚ) ≤ 1 / 2 ∧ (1 / 2 : ℚ) ≤ 1 ∧ (50 : ℤ) = ⌊(1 / 2 : ℚ) * 100⌋ :=
  ⟨by norm_num, by norm_num,
   progress_percent_is_floor cexStart 10 (1 / 2) (by norm_num) (by norm_num)
     "benchy.gcode" 50 10 10 10
     (by
       rw [onPPC_eq_of_fire 10 (1 / 2) cexStart rfl cexStart_lt_half, pyInt_half]
       norm_num [cexStart])⟩

/-- Evaluation of `int(0 * 100)`. -/
theorem pyInt_zero : pyInt ((0 : ℚ) * 100) = 0 := by
  have h : ((0 : ℚ) * 100) = 0 := by norm_num
  rw [h, pyInt_eq_floor 0 le_rfl]
  norm_num

/-- Claim C4: whenever the progress handler actually emits an event (in a
reachable state), its `estimated_remaining_seconds` equals
`elapsed / max(p, 0.01) - elapsed` with `elapsed = now - printStartTime`:
on every firing input the code's divisor `p if p > 0 else 0.01`
coincides with `max(p, 0.01)`. -/
theorem remaining_uses_max_divisor :
    ∀ (s : TrackerState) (now p : ℚ), Reachable s →
      (onPrintProgressChanged now p s).2 ≠ [] →
      (onPrintProgressChanged now p s).2 =
        [Event.progress_update s.current_job_name (pyInt (p * 100))
          (now - s.print_start_time)
          ((now - s.print_start_time) / max p (1 / 100) - (now - s.print_start_time))
          now] := by
  intro s now p hr hne
  obtain ⟨h1, h2⟩ := onPPC_ne_nil now p s hne
  have hp : 1 / 100 ≤ p := fire_p_ge s now p hr hne
  have hp0 : 0 < p := lt_of_lt_of_le (by norm_num) hp
  rw [onPPC_eq_of_fire now p s h1 h2, if_pos hp0, max_eq_left hp]

/-- Claim C4, witness: progress `0.5` at time 10 in `cexStart` emits the
event whose remaining-time field uses the `max` divisor. -/
theorem remaining_uses_max_divisor_witness :
    (onPrintProgressChanged 10 (1 / 2) cexStart).2 =
      [Event.progress_update cexStart.current_job_name (pyInt ((1 / 2 : ℚ) * 100))
        (10 - cexStart.print_start_time)
        ((10 - cexStart.print_start_time) / max (1 / 2) (1 / 100) -
          (10 - cexStart.print_start_time)) 10] :=
  remaining_uses_max_divisor cexStart 10 (1 / 2) reachable_cexStart
    (by rw [onPPC_eq_of_fire 10 (1 / 2) cexStart rfl cexStart_lt_half]; simp)

/-- Claim C5, counterexample to the claim as stated: in the reachable
printing state `cexStart`, delivering progress value 0 produces no
`progress_update` at all (the handler is a complete no-op), because
`int(0 * 100) = 0` is not strictly greater than `_last_progress = 0`. -/
theorem zero_progress_no_event_cex :
    Reachable cexStart ∧ cexStart.is_printing = true ∧
    onPrintProgressChanged 5 0 cexStart = (cexStart, []) :=
  ⟨reachable_cexStart, rfl,
   onPPC_eq_of_skip 5 0 cexStart rfl (by rw [pyInt_zero]; norm_num [cexStart])⟩

/-- Claim C5 (amended): while the tracker is printing (in any reachable
state), delivering progress value 0 emits nothing and leaves the state
unchanged: `int(0 * 100) = 0` never strictly exceeds the nonnegative
`_last_progress`, so no `progress_update` with `progress_percent = 0` is ever
produced and the `0.01` divisor floor is never exercised by a fired event. -/
theorem zero_progress_is_noop :
    ∀ (s : TrackerState) (now : ℚ), Reachable s → s.is_printing = true →
      onPrintProgressChanged now 0 s = (s, []) := by
  intro s now hr h1
  apply onPPC_eq_of_skip now 0 s h1
  rw [pyInt_zero]
  have h0 := (reachable_invP s hr).2 h1
  omega

/-- Claim C5, witness: the amended no-op behavior on `cexStart`. -/
theorem zero_progress_is_noop_witness :
    cexStart.is_printing = true ∧
    onPrintProgressChanged 5 0 cexStart = (cexStart, []) :=
  ⟨rfl, zero_progress_is_noop cexStart 5 reachable_cexStart rfl⟩

/-- Claim C6: when the webhook URL is unconfigured (empty or the
placeholder), no HTTP request is issued for any event the tracker generates,
and every poller tick exits early without touching the state or emitting
anything. -/
theorem unconfigured_url_no_requests :
    ∀ url : String, urlUnconfigured url →
      (∀ evs : List Event, requestsFor url evs = []) ∧
      (∀ (now : ℚ) (devices : List Device) (s : TrackerState),
        s.webhook_url = url → checkPrintProgress now devices s = (s, [])) := by
  intro url hu
  constructor
  · intro evs
    simp [requestsFor, sendWebhookUpdate, hu]
  · intro now devices s hs
    unfold checkPrintProgress
    rw [hs, if_pos hu]

/-- Claim C6, witness: with the empty URL nothing is sent and a tick is a
no-op. -/
theorem unconfigured_url_no_requests_witness :
    urlUnconfigured "" ∧
    requestsFor "" [Event.print_ended "Print job ended or cancelled" 0] = [] ∧
    checkPrintProgress 0 [] (setWebhookUrl "" initState) = (setWebhookUrl "" initState, []) :=
  ⟨Or.inl rfl,
   (unconfigured_url_no_requests "" (Or.inl rfl)).1
     [Event.print_ended "Print job ended or cancelled" 0],
   (unconfigured_url_no_requests "" (Or.inl rfl)).2 0 [] (setWebhookUrl "" initState) rfl⟩

/-- Claim C7: the request function never propagates an exception to its
invoker for any event type and any transport outcome: every outcome ends in
`.ok` with a log line; a 200 response logs success at debug level with the
event type, any other status logs a warning with the status code, and every
raised exception is caught and logged at error level. -/
theorem sender_never_raises :
    ∀ (et : String) (oc : TransportOutcome),
      (∃ l : LogLine, sendWebhookRequest et oc = Except.ok l) ∧
      (∀ c : ℤ, oc = TransportOutcome.response c → c = 200 →
        sendWebhookRequest et oc =
          Except.ok { level := LogLevel.d,
                      msg := "Webhook update sent successfully: " ++ et }) ∧
      (∀ c : ℤ, oc = TransportOutcome.response c → c ≠ 200 →
        sendWebhookRequest et oc =
          Except.ok { level := LogLevel.w,
                      msg := "Webhook returned status " ++ toString c }) ∧
      (∀ exc : PyExc, webhookRequestBody et oc = Except.error exc →
        ∃ l : LogLine, sendWebhookRequest et oc = Except.ok l ∧ l.level = LogLevel.e) := by
  intro et oc
  refine ⟨?_, ?_, ?_, ?_⟩
  · cases oc with
    | response c =>
        by_cases hc : c = 200 <;>
          simp [sendWebhookRequest, webhookRequestBody, hc]
    | httpError c r => exact ⟨_, rfl⟩
    | urlError r => exact ⟨_, rfl⟩
    | serializationError m => exact ⟨_, rfl⟩
    | otherException m => exact ⟨_, rfl⟩
  · intro c hoc hc
    subst hoc
    subst hc
    simp [sendWebhookRequest, webhookRequestBody]
  · intro c hoc hc
    subst hoc
    simp [sendWebhookRequest, webhookRequestBody, hc]
  · intro exc hexc
    cases oc with
    | response c =>
        by_cases hc : c = 200 <;> simp [webhookRequestBody, hc] at hexc
    | httpError c r => exact ⟨_, rfl, rfl⟩
    | urlError r => exact ⟨_, rfl, rfl⟩
    | serializationError m => exact ⟨_, rfl, rfl⟩
    | otherException m => exact ⟨_, rfl, rfl⟩

/-- Claim C7, witness: a 200 response logs success, a 404 logs the status. -/
theorem sender_never_raises_witness :
    sendWebhookRequest "print_started" (TransportOutcome.response 200) =
      Except.ok { level := LogLevel.d,
                  msg := "Webhook update sent successfully: " ++ "print_started" } ∧
    sendWebhookRequest "print_started" (TransportOutcome.response 404) =
      Except.ok { level := LogLevel.w,
                  msg := "Webhook returned status " ++ toString (404 : ℤ) } :=
  ⟨(sender_never_raises "print_started" (TransportOutcome.response 200)).2.1 200 rfl rfl,
   (sender_never_raises "print_started" (TransportOutcome.response 404)).2.2.1 404 rfl
     (by decide)⟩

/-- Claim C8: a job-changed transition from the printing state with a null
job produces exactly one `print_ended` event and resets `_is_printing`,
`_current_job_name` and `_last_progress` to their idle values; the stated
equality also shows `_print_start_time` is simply left as it was, which the
data model admits ("undefined/0 when idle"). -/
theorem job_null_ends_print :
    ∀ (s : TrackerState) (now : ℚ), s.is_printing = true →
      onPrintJobChanged now none s =
        ({ s with is_printing := false, current_job_name := "", last_progress := -1 },
         [Event.print_ended "Print job ended or cancelled" now]) :=
  fun _ _ _ => rfl

/-- Claim C8, witness: ending the print in `cexStart`. -/
theorem job_null_ends_print_witness :
    cexStart.is_printing = true ∧
    onPrintJobChanged 7 none cexStart =
      ({ cexStart with is_printing := false, current_job_name := "", last_progress := -1 },
       [Event.print_ended "Print job ended or cancelled" 7]) :=
  ⟨rfl, job_null_ends_print cexStart 7 rfl⟩

/-- Claim C10: the push job-changed handler ignores the tracker's current
state entirely: with a null job it always emits one `print_ended` and resets
the idle fields (even when already idle), and with a non-null job it always
emits one `print_started`, setting `_print_start_time = now` and
`_last_progress = 0` (even when already printing). -/
theorem push_handler_state_insensitive :
    (∀ (s : TrackerState) (now : ℚ),
      onPrintJobChanged now none s =
        ({ s with is_printing := false, current_job_name := "", last_progress := -1 },
         [Event.print_ended "Print job ended or cancelled" now])) ∧
    (∀ (s : TrackerState) (now : ℚ) (j : Job),
      onPrintJobChanged now (some j) s =
        ({ s with is_printing := true, current_job_name := j.name.getD "Unknown",
                  print_start_time := now, last_progress := 0 },
         [Event.print_started (j.name.getD "Unknown") now])) :=
  ⟨fun _ _ => rfl, fun _ _ _ => rfl⟩

/-- Claim C9: whenever a `progress_update` actually fires in a reachable
state, the delivered progress value satisfies `p ≥ 0.01`, so the division is
by a value `≥ 0.01` and the `else 0.01` branch of the divisor guard is never
the one taken on a firing input. -/
theorem divisor_guard_unreachable :
    ∀ (s : TrackerState) (now p : ℚ), Reachable s →
      (onPrintProgressChanged now p s).2 ≠ [] →
      1 / 100 ≤ p ∧ (if 0 < p then p else (1 / 100 : ℚ)) = p := by
  intro s now p hr hne
  have hp := fire_p_ge s now p hr hne
  exact ⟨hp, if_pos (lt_of_lt_of_le (by norm_num) hp)⟩

/-- Claim C9, witness: the firing input `0.5` in `cexStart`. -/
theorem divisor_guard_unreachable_witness :
    (1 / 100 : ℚ) ≤ 1 / 2 ∧
    (if 0 < (1 / 2 : ℚ) then (1 / 2 : ℚ) else 1 / 100) = 1 / 2 :=
  divisor_guard_unreachable cexStart 10 (1 / 2) reachable_cexStart
    (by rw [onPPC_eq_of_fire 10 (1 / 2) cexStart rfl cexStart_lt_half]; simp)

end WebhookPlugin
